import Mathlib

/-!
Verification of the payment/deposit workflow of the freelancer-marketplace
backend (`src/app.js` and the `getProfile` middleware).

The persistence store (Sequelize models `Profile`, `Contract`, `Job`) is
embedded as lists of records; the HTTP handlers become pure functions from a
request and a store to a response tag and the updated store.  Balances and
prices are `decimal` in the data model and are embedded as rationals.
-/

namespace PayGroup

/-- Profile.type enum: client or contractor. -/
inductive ProfileType
  | client
  | contractor
deriving DecidableEq

/-- Contract.status enum: new, in_progress, terminated. -/
inductive ContractStatus
  | new
  | in_progress
  | terminated
deriving DecidableEq

/-- A Profile row: id, type, firstName, lastName, profession, balance. -/
structure Profile where
  id : Nat
  type : ProfileType
  firstName : String
  lastName : String
  profession : String
  balance : ℚ
deriving DecidableEq

/-- A Contract row: id, ClientId, ContractorId, status. -/
structure Contract where
  id : Nat
  ClientId : Nat
  ContractorId : Nat
  status : ContractStatus
deriving DecidableEq

/-- A Job row: id, ContractId, price, paid (boolean or NULL), paymentDate
(NULL until paid; embedded as an abstract timestamp). -/
structure Job where
  id : Nat
  ContractId : Nat
  price : ℚ
  paid : Option Bool
  paymentDate : Option Nat
deriving DecidableEq

/-- The persistence store: all Profile, Contract and Job rows. -/
structure Store where
  profiles : List Profile
  contracts : List Contract
  jobs : List Job
deriving DecidableEq

/-- `Profile.findOne({where: {id}})` / `Profile.findByPk(id)`. -/
def findProfile (pid : Nat) (st : Store) : Option Profile :=
  st.profiles.find? (fun p => p.id == pid)

/-- `Job.findByPk(jobId)`. -/
def findJob (jobId : Nat) (st : Store) : Option Job :=
  st.jobs.find? (fun j => j.id == jobId)

/-- `Contract.findOne({where: {id}})`; also resolves the `include: ['Contract']`
join on a job's ContractId. -/
def findContract (cid : Nat) (st : Store) : Option Contract :=
  st.contracts.find? (fun c => c.id == cid)

/-- `Profile.update({balance: Sequelize.literal('balance + d')}, {where: {id}})`:
adds `d` to the balance of every profile row whose id matches. -/
def updateBalance (pid : Nat) (d : ℚ) (st : Store) : Store :=
  { st with
    profiles := st.profiles.map (fun p =>
      if p.id == pid then { p with balance := p.balance + d } else p) }

/-- `job.update({paid: true, paymentDate: new Date()})`: marks the job row
with the given id as paid at time `now`. -/
def markPaid (jobId now : Nat) (st : Store) : Store :=
  { st with
    jobs := st.jobs.map (fun j =>
      if j.id == jobId then { j with paid := some true, paymentDate := some now } else j) }

/-- Outcome of the `getProfile` middleware. -/
inductive GuardResult
  | missingIdentity
  | unknownIdentity
  | ok (profile : Profile)
deriving DecidableEq

/-- The `getProfile` middleware (src/middleware/getProfile): reads the
`profile_id` header; 400 when absent, 404 when it resolves to no Profile,
otherwise attaches the resolved Profile and calls `next()`.  It issues no
store write, so the store component of the result is the input store. -/
def getProfile (profileId : Option Nat) (st : Store) : GuardResult × Store :=
  match profileId with
  | none => (.missingIdentity, st)
  | some pid =>
    match findProfile pid st with
    | none => (.unknownIdentity, st)
    | some profile => (.ok profile, st)

/-- Outcome of `POST /jobs/:job_id/pay`. -/
inductive PayResult
  | success
  | jobNotFound
  | unauthorized
  | insufficientBalance
  | internalError
deriving DecidableEq

/-- `POST /jobs/:job_id/pay` (src/app.js, lines 130-175).  `profile` is the
caller's Profile as resolved by the `getProfile` middleware.  Looks up the job
and its contract; 404 when the job is absent; a missing contract row would make
`job.Contract.ClientId` throw, caught as a 500; 403 unless the caller is the
contract's client; 400 when the caller's balance is below the price; otherwise
debits the caller, credits the contractor, marks the job paid, in that order.
The handler checks neither `job.paid` nor `Contract.status`. -/
def payJob (profile : Profile) (jobId : Nat) (now : Nat) (st : Store) : PayResult × Store :=
  match findJob jobId st with
  | none => (.jobNotFound, st)
  | some job =>
    match findContract job.ContractId st with
    | none => (.internalError, st)
    | some contract =>
      if contract.ClientId ≠ profile.id then (.unauthorized, st)
      else if profile.balance < job.price then (.insufficientBalance, st)
      else
        (.success,
          markPaid jobId now
            (updateBalance contract.ContractorId job.price
              (updateBalance profile.id (-job.price) st)))

/-- `POST /jobs/:job_id/pay` with the store's failure behaviour made explicit:
the handler issues its three writes (debit, credit, mark-paid) as separate
awaited statements inside one `try`; a write that throws is caught and answered
with a 500 while every write already executed stays committed — there is no
transaction and no rollback.  `ok k` tells whether the k-th write (0 = debit,
1 = credit, 2 = mark-paid) succeeds.  With `ok` constantly true this is exactly
`payJob`. -/
def payJobWithFaults (ok : Nat → Bool) (profile : Profile) (jobId : Nat) (now : Nat)
    (st : Store) : PayResult × Store :=
  match findJob jobId st with
  | none => (.jobNotFound, st)
  | some job =>
    match findContract job.ContractId st with
    | none => (.internalError, st)
    | some contract =>
      if contract.ClientId ≠ profile.id then (.unauthorized, st)
      else if profile.balance < job.price then (.insufficientBalance, st)
      else if ok 0 = false then (.internalError, st)
      else if ok 1 = false then (.internalError, updateBalance profile.id (-job.price) st)
      else if ok 2 = false then
        (.internalError,
          updateBalance contract.ContractorId job.price
            (updateBalance profile.id (-job.price) st))
      else
        (.success,
          markPaid jobId now
            (updateBalance contract.ContractorId job.price
              (updateBalance profile.id (-job.price) st)))

/-- Outcome of `POST /balances/deposit/:userId`. -/
inductive DepositResult
  | success
  | unauthorized
  | depositLimitExceeded
deriving DecidableEq

/-- `Job.sum('price', ...)` of the deposit handler: total price of jobs with
`paid` NULL whose joined contract has the given ClientId and status
in_progress.  Sequelize's `sum` yields NULL when no row matches, and the
handler's `null * 0.25` evaluates to 0, so the empty sum is 0 here as well. -/
def totalJobsToPay (clientId : Nat) (st : Store) : ℚ :=
  ((st.jobs.filter (fun j =>
      j.paid == none &&
        match findContract j.ContractId st with
        | some c => c.ClientId == clientId && c.status == ContractStatus.in_progress
        | none => false)).map Job.price).sum

/-- `POST /balances/deposit/:userId` (src/app.js, lines 178-228).  403 unless
the caller is the addressed user and a client; computes the cap as 25% of
`totalJobsToPay`; 400 when the requested amount exceeds the cap; otherwise
credits the caller's balance by the requested amount.  There is no check that
the amount is positive. -/
def deposit (profile : Profile) (userId : Nat) (amount : ℚ) (st : Store) :
    DepositResult × Store :=
  if profile.id ≠ userId ∨ profile.type ≠ ProfileType.client then (.unauthorized, st)
  else if totalJobsToPay profile.id st * (0.25 : ℚ) < amount then (.depositLimitExceeded, st)
  else (.success, updateBalance profile.id amount st)

/-- Balance of the profile row with the given id (0 when absent). -/
def balanceOf (pid : Nat) (st : Store) : ℚ :=
  match findProfile pid st with
  | some p => p.balance
  | none => 0

/-- Sum of all Profile balances. -/
def sumBalances (st : Store) : ℚ :=
  (st.profiles.map Profile.balance).sum

/-- The profile row with the given id exists and has the given type. -/
def typedProfileAt (pid : Nat) (t : ProfileType) (st : Store) : Bool :=
  match findProfile pid st with
  | some p => p.type == t
  | none => false

/-- Modelled from the spec: the model definitions (`src/model.js`) are not in
the sources, so the store's integrity comes from the spec's data model (§3):
profile ids are unique; each contract has exactly one client and one
contractor, i.e. its ClientId resolves to a client-typed Profile and its
ContractorId to a contractor-typed Profile. -/
def Store.WF (st : Store) : Prop :=
  (st.profiles.map Profile.id).Nodup ∧
  ∀ c ∈ st.contracts,
    typedProfileAt c.ClientId ProfileType.client st = true ∧
    typedProfileAt c.ContractorId ProfileType.contractor st = true

instance (st : Store) : Decidable st.WF := by
  unfold Store.WF
  infer_instance

/-! ### Bookkeeping lemmas about the store operations -/

lemma find?_map_id_preserving (f : Profile → Profile) (hf : ∀ p, (f p).id = p.id)
    (l : List Profile) (pid : Nat) :
    (l.map f).find? (fun p => p.id == pid) = (l.find? (fun p => p.id == pid)).map f := by
  rw [List.find?_map]
  have hpred : ((fun p => p.id == pid) ∘ f) = (fun p => p.id == pid) := by
    funext p
    simp [Function.comp, hf]
  rw [hpred]

lemma findProfile_updateBalance (pid qid : Nat) (d : ℚ) (st : Store) :
    findProfile qid (updateBalance pid d st) =
      (findProfile qid st).map
        (fun p => if p.id == pid then { p with balance := p.balance + d } else p) := by
  unfold findProfile updateBalance
  exact find?_map_id_preserving _ (fun p => by split <;> rfl) _ _

lemma id_of_findProfile {pid : Nat} {st : Store} {p : Profile}
    (h : findProfile pid st = some p) : p.id = pid := by
  have := List.find?_some h
  simpa using this

lemma balanceOf_updateBalance_self {pid : Nat} (d : ℚ) {st : Store}
    (h : (findProfile pid st).isSome) :
    balanceOf pid (updateBalance pid d st) = balanceOf pid st + d := by
  unfold balanceOf
  rw [findProfile_updateBalance]
  cases hfp : findProfile pid st with
  | none => rw [hfp] at h; simp at h
  | some p =>
    have hpid : p.id = pid := id_of_findProfile hfp
    simp [hpid]

lemma balanceOf_updateBalance_other {pid qid : Nat} (d : ℚ) {st : Store}
    (h : qid ≠ pid) :
    balanceOf qid (updateBalance pid d st) = balanceOf qid st := by
  unfold balanceOf
  rw [findProfile_updateBalance]
  cases hfp : findProfile qid st with
  | none => rfl
  | some p =>
    have hqid : p.id = qid := id_of_findProfile hfp
    simp [hqid, h]

lemma balanceOf_markPaid (pid jobId now : Nat) (st : Store) :
    balanceOf pid (markPaid jobId now st) = balanceOf pid st := rfl

lemma sumBalances_markPaid (jobId now : Nat) (st : Store) :
    sumBalances (markPaid jobId now st) = sumBalances st := rfl

lemma profiles_map_id_updateBalance (pid : Nat) (d : ℚ) (st : Store) :
    (updateBalance pid d st).profiles.map Profile.id = st.profiles.map Profile.id := by
  unfold updateBalance
  rw [List.map_map]
  apply List.map_congr_left
  intro p _
  simp only [Function.comp]
  split <;> rfl

lemma sum_balances_map_update (l : List Profile) (pid : Nat) (d : ℚ)
    (hnd : (l.map Profile.id).Nodup)
    (h : (l.find? (fun p => p.id == pid)).isSome) :
    ((l.map (fun p => if p.id == pid then { p with balance := p.balance + d } else p)).map
        Profile.balance).sum = (l.map Profile.balance).sum + d := by
  induction l with
  | nil => simp at h
  | cons a l ih =>
    rw [List.map_cons, List.nodup_cons] at hnd
    by_cases ha : a.id = pid
    · have htail : l.map (fun p => if p.id == pid then { p with balance := p.balance + d } else p)
          = l := by
        have hne : ∀ p ∈ l, p.id ≠ pid := by
          intro p hp hpe
          exact hnd.1 (by rw [ha, ← hpe]; exact List.mem_map_of_mem Profile.id hp)
        calc l.map (fun p => if p.id == pid then { p with balance := p.balance + d } else p)
            = l.map id := by
              apply List.map_congr_left
              intro p hp
              simp [hne p hp]
          _ = l := List.map_id l
      have hatrue : (a.id == pid) = true := by simpa using ha
      rw [List.map_cons, if_pos hatrue, htail, List.map_cons, List.sum_cons, List.map_cons,
        List.sum_cons]
      ring
    · have hane : ¬ ((a.id == pid) = true) := by simpa using ha
      have htl : (l.find? (fun p => p.id == pid)).isSome := by
        rw [List.find?_cons_of_neg _ (by simpa using ha)] at h
        exact h
      rw [List.map_cons, if_neg hane, List.map_cons, List.sum_cons, List.map_cons, List.sum_cons,
        ih hnd.2 htl]
      ring

lemma sumBalances_updateBalance {pid : Nat} (d : ℚ) {st : Store}
    (hnd : (st.profiles.map Profile.id).Nodup)
    (h : (findProfile pid st).isSome) :
    sumBalances (updateBalance pid d st) = sumBalances st + d :=
  sum_balances_map_update st.profiles pid d hnd h

/-! ### Characterisation of the payment handler -/

lemma payJob_checks (profile : Profile) (jobId now : Nat) (st : Store)
    {job : Job} {c : Contract}
    (hj : findJob jobId st = some job) (hc : findContract job.ContractId st = some c) :
    payJob profile jobId now st =
      if c.ClientId ≠ profile.id then (.unauthorized, st)
      else if profile.balance < job.price then (.insufficientBalance, st)
      else
        (.success,
          markPaid jobId now
            (updateBalance c.ContractorId job.price
              (updateBalance profile.id (-job.price) st))) := by
  unfold payJob
  split
  · rename_i hj0
    rw [hj] at hj0
    exact Option.noConfusion hj0
  · rename_i job0 hj0
    rw [hj] at hj0
    injection hj0 with hj0
    subst hj0
    split
    · rename_i hc0
      rw [hc] at hc0
      exact Option.noConfusion hc0
    · rename_i c0 hc0
      rw [hc] at hc0
      injection hc0 with hc0
      subst hc0
      rfl

lemma payJob_success_state (profile : Profile) (jobId now : Nat) (st : Store)
    {job : Job} {c : Contract}
    (hj : findJob jobId st = some job) (hc : findContract job.ContractId st = some c)
    (hauth : c.ClientId = profile.id) (hfunds : ¬ profile.balance < job.price) :
    payJob profile jobId now st =
      (.success,
        markPaid jobId now
          (updateBalance c.ContractorId job.price
            (updateBalance profile.id (-job.price) st))) := by
  rw [payJob_checks profile jobId now st hj hc, if_neg (by simp [hauth]), if_neg hfunds]

lemma payJob_success_elim (profile : Profile) (jobId now : Nat) (st : Store)
    (hsucc : (payJob profile jobId now st).1 = .success) :
    ∃ job, findJob jobId st = some job ∧
      ∃ c, findContract job.ContractId st = some c ∧
        c.ClientId = profile.id ∧ ¬ profile.balance < job.price := by
  unfold payJob at hsucc
  split at hsucc
  · simp at hsucc
  · rename_i job hj
    split at hsucc
    · simp at hsucc
    · rename_i c hc
      split at hsucc
      · simp at hsucc
      · rename_i hauth
        split at hsucc
        · simp at hsucc
        · rename_i hfunds
          exact ⟨job, hj, c, hc, not_not.mp hauth, hfunds⟩

lemma contract_mem_of_findContract {cid : Nat} {st : Store} {c : Contract}
    (h : findContract cid st = some c) : c ∈ st.contracts :=
  List.mem_of_find?_eq_some h

lemma isSome_of_typedProfileAt {pid : Nat} {t : ProfileType} {st : Store}
    (h : typedProfileAt pid t st = true) : (findProfile pid st).isSome := by
  unfold typedProfileAt at h
  cases hfp : findProfile pid st with
  | none => rw [hfp] at h; simp at h
  | some p => simp

lemma type_of_typedProfileAt {pid : Nat} {t : ProfileType} {st : Store} {p : Profile}
    (h : typedProfileAt pid t st = true) (hfp : findProfile pid st = some p) :
    p.type = t := by
  unfold typedProfileAt at h
  rw [hfp] at h
  simpa using h

/-- In a well-formed store the client and the contractor of a contract are
distinct profiles. -/
lemma contractor_ne_client {st : Store} {c : Contract} (hwf : st.WF)
    (hmem : c ∈ st.contracts) : c.ContractorId ≠ c.ClientId := by
  intro heq
  obtain ⟨-, hcontracts⟩ := hwf
  obtain ⟨hcl, hco⟩ := hcontracts c hmem
  cases hfp : findProfile c.ClientId st with
  | none =>
    have := isSome_of_typedProfileAt hcl
    rw [hfp] at this
    simp at this
  | some p =>
    have h1 : p.type = ProfileType.client := type_of_typedProfileAt hcl hfp
    have h2 : p.type = ProfileType.contractor := by
      refine type_of_typedProfileAt hco ?_
      rw [heq, hfp]
    rw [h1] at h2
    exact ProfileType.noConfusion h2

/-- C1: on every successful payJob with job price p, the paying client's
balance decreases by exactly p, the balance of the profile with id
Contract.ContractorId increases by exactly p, the sum of those two balances is
unchanged, and the sum of all Profile balances is unchanged. -/
theorem payJob_conservation (st : Store) (profile : Profile) (jobId now : Nat)
    (hwf : st.WF)
    (hp : findProfile profile.id st = some profile)
    (hsucc : (payJob profile jobId now st).1 = .success) :
    ∃ job c, findJob jobId st = some job ∧ findContract job.ContractId st = some c ∧
      balanceOf profile.id (payJob profile jobId now st).2
        = balanceOf profile.id st - job.price ∧
      balanceOf c.ContractorId (payJob profile jobId now st).2
        = balanceOf c.ContractorId st + job.price ∧
      balanceOf profile.id (payJob profile jobId now st).2
          + balanceOf c.ContractorId (payJob profile jobId now st).2
        = balanceOf profile.id st + balanceOf c.ContractorId st ∧
      sumBalances (payJob profile jobId now st).2 = sumBalances st := by
  obtain ⟨job, hj, c, hc, hauth, hfunds⟩ := payJob_success_elim profile jobId now st hsucc
  have hstate := payJob_success_state profile jobId now st hj hc hauth hfunds
  have hmem : c ∈ st.contracts := contract_mem_of_findContract hc
  have hne : c.ContractorId ≠ profile.id := by
    have := contractor_ne_client hwf hmem
    rw [hauth] at this
    exact this
  have hppres : (findProfile profile.id st).isSome := by rw [hp]; simp
  have hcpres : (findProfile c.ContractorId st).isSome :=
    isSome_of_typedProfileAt (hwf.2 c hmem).2
  have hcpres1 : (findProfile c.ContractorId (updateBalance profile.id (-job.price) st)).isSome := by
    rw [findProfile_updateBalance]
    cases hfp : findProfile c.ContractorId st with
    | none => rw [hfp] at hcpres; simp at hcpres
    | some p => simp
  have hnd1 : ((updateBalance profile.id (-job.price) st).profiles.map Profile.id).Nodup := by
    rw [profiles_map_id_updateBalance]
    exact hwf.1
  refine ⟨job, c, hj, hc, ?_, ?_, ?_, ?_⟩
  · rw [hstate]
    simp only [balanceOf_markPaid]
    rw [balanceOf_updateBalance_other job.price (Ne.symm hne),
      balanceOf_updateBalance_self (-job.price) hppres]
    ring
  · rw [hstate]
    simp only [balanceOf_markPaid]
    rw [balanceOf_updateBalance_self job.price hcpres1,
      balanceOf_updateBalance_other (-job.price) hne]
  · rw [hstate]
    simp only [balanceOf_markPaid]
    rw [balanceOf_updateBalance_other job.price (Ne.symm hne),
      balanceOf_updateBalance_self (-job.price) hppres,
      balanceOf_updateBalance_self job.price hcpres1,
      balanceOf_updateBalance_other (-job.price) hne]
    ring
  · rw [hstate]
    simp only [sumBalances_markPaid]
    rw [sumBalances_updateBalance job.price hnd1 hcpres1,
      sumBalances_updateBalance (-job.price) hwf.1 hppres]
    ring

/-- A concrete well-formed store: client 1 (balance 30), contractor 2
(balance 5), one in_progress contract, one unpaid job of price 10. -/
def stC1 : Store :=
  ⟨[⟨1, .client, "a", "b", "p", 30⟩, ⟨2, .contractor, "c", "d", "q", 5⟩],
   [⟨1, 1, 2, .in_progress⟩], [⟨1, 1, 10, none, none⟩]⟩

/-- The client profile of `stC1` as the guard resolves it. -/
def pC1 : Profile := ⟨1, .client, "a", "b", "p", 30⟩

/-- Witness for C1 at a concrete input. -/
theorem payJob_conservation_witness :
    Store.WF stC1 ∧ findProfile 1 stC1 = some pC1 ∧
      (payJob pC1 1 0 stC1).1 = PayResult.success ∧
      (∃ job c, findJob 1 stC1 = some job ∧ findContract job.ContractId stC1 = some c ∧
        balanceOf 1 (payJob pC1 1 0 stC1).2 = balanceOf 1 stC1 - job.price ∧
        balanceOf c.ContractorId (payJob pC1 1 0 stC1).2
          = balanceOf c.ContractorId stC1 + job.price ∧
        balanceOf 1 (payJob pC1 1 0 stC1).2 + balanceOf c.ContractorId (payJob pC1 1 0 stC1).2
          = balanceOf 1 stC1 + balanceOf c.ContractorId stC1 ∧
        sumBalances (payJob pC1 1 0 stC1).2 = sumBalances stC1) :=
  ⟨by with_unfolding_all decide, by with_unfolding_all decide, by with_unfolding_all decide,
    payJob_conservation stC1 pC1 1 0 (by with_unfolding_all decide)
      (by with_unfolding_all decide) (by with_unfolding_all decide)⟩

/-- C4: when the job exists, the caller is the contract's client, and the
caller's balance is strictly below the job's price, payJob answers
InsufficientBalance (HTTP 400) and leaves the store — in particular every
profile balance — exactly as it was. -/
theorem payJob_insufficientBalance (st : Store) (profile : Profile) (jobId now : Nat)
    {job : Job} {c : Contract}
    (hj : findJob jobId st = some job) (hc : findContract job.ContractId st = some c)
    (hauth : c.ClientId = profile.id) (hlt : profile.balance < job.price) :
    payJob profile jobId now st = (.insufficientBalance, st) := by
  rw [payJob_checks profile jobId now st hj hc, if_neg (by simp [hauth]), if_pos hlt]

/-- Witness for C4: client balance 5, job price 10. -/
def stC4 : Store :=
  ⟨[⟨1, .client, "a", "b", "p", 5⟩, ⟨2, .contractor, "c", "d", "q", 0⟩],
   [⟨1, 1, 2, .in_progress⟩], [⟨1, 1, 10, none, none⟩]⟩

theorem payJob_insufficientBalance_witness :
    findJob 1 stC4 = some ⟨1, 1, 10, none, none⟩ ∧
      findContract 1 stC4 = some ⟨1, 1, 2, .in_progress⟩ ∧
      ((5 : ℚ) < 10) ∧
      payJob ⟨1, .client, "a", "b", "p", 5⟩ 1 0 stC4 = (.insufficientBalance, stC4) :=
  ⟨by with_unfolding_all decide, by with_unfolding_all decide, by with_unfolding_all decide,
    @payJob_insufficientBalance stC4 ⟨1, .client, "a", "b", "p", 5⟩ 1 0
      ⟨1, 1, 10, none, none⟩ ⟨1, 1, 2, .in_progress⟩
      (by with_unfolding_all decide) (by with_unfolding_all decide)
      (by with_unfolding_all decide) (by with_unfolding_all decide)⟩

/-- C5: when the job exists but the caller's profile id differs from the
contract's ClientId — e.g. the caller is the contractor — payJob answers
Unauthorized (HTTP 403) and leaves the store unchanged. -/
theorem payJob_unauthorized (st : Store) (profile : Profile) (jobId now : Nat)
    {job : Job} {c : Contract}
    (hj : findJob jobId st = some job) (hc : findContract job.ContractId st = some c)
    (hne : c.ClientId ≠ profile.id) :
    payJob profile jobId now st = (.unauthorized, st) := by
  rw [payJob_checks profile jobId now st hj hc, if_pos hne]

/-- Witness for C5: the contractor (profile 2) calls payJob on a job of their
own contract. -/
def stC5 : Store :=
  ⟨[⟨1, .client, "a", "b", "p", 100⟩, ⟨2, .contractor, "c", "d", "q", 0⟩],
   [⟨1, 1, 2, .in_progress⟩], [⟨1, 1, 10, none, none⟩]⟩

theorem payJob_unauthorized_witness :
    findJob 1 stC5 = some ⟨1, 1, 10, none, none⟩ ∧
      findContract 1 stC5 = some ⟨1, 1, 2, .in_progress⟩ ∧
      (1 : Nat) ≠ 2 ∧
      payJob ⟨2, .contractor, "c", "d", "q", 0⟩ 1 0 stC5 = (.unauthorized, stC5) :=
  ⟨by with_unfolding_all decide, by with_unfolding_all decide, by with_unfolding_all decide,
    @payJob_unauthorized stC5 ⟨2, .contractor, "c", "d", "q", 0⟩ 1 0
      ⟨1, 1, 10, none, none⟩ ⟨1, 1, 2, .in_progress⟩
      (by with_unfolding_all decide) (by with_unfolding_all decide)
      (by with_unfolding_all decide)⟩

/-- C6: for an authorized client deposit with outstanding unpaid in_progress
job total T = `totalJobsToPay`, a request of exactly `T * 0.25` succeeds and
credits the client's balance by that amount, while every request strictly
above `T * 0.25` answers DepositLimitExceeded (HTTP 400) and leaves the store
unchanged. -/
theorem deposit_cap (st : Store) (profile : Profile) (userId : Nat)
    (hid : profile.id = userId) (hty : profile.type = ProfileType.client)
    (hp : findProfile profile.id st = some profile) :
    (deposit profile userId (totalJobsToPay profile.id st * (0.25 : ℚ)) st).1 = .success ∧
    balanceOf profile.id (deposit profile userId (totalJobsToPay profile.id st * (0.25 : ℚ)) st).2
      = balanceOf profile.id st + totalJobsToPay profile.id st * (0.25 : ℚ) ∧
    ∀ a : ℚ, totalJobsToPay profile.id st * (0.25 : ℚ) < a →
      deposit profile userId a st = (.depositLimitExceeded, st) := by
  have hnauth : ¬ (profile.id ≠ userId ∨ profile.type ≠ ProfileType.client) := by
    push_neg
    exact ⟨hid, hty⟩
  refine ⟨?_, ?_, ?_⟩
  · unfold deposit
    rw [if_neg hnauth, if_neg (lt_irrefl _)]
  · unfold deposit
    rw [if_neg hnauth, if_neg (lt_irrefl _)]
    exact balanceOf_updateBalance_self _ (by rw [hp]; simp)
  · intro a ha
    unfold deposit
    rw [if_neg hnauth, if_pos ha]

/-- Witness for C6: client 1 with one unpaid in_progress job of price 8, so
T = 8 and the cap is 2; a deposit of 2 succeeds, a deposit of 3 fails. -/
def stC6 : Store :=
  ⟨[⟨1, .client, "a", "b", "p", 0⟩, ⟨2, .contractor, "c", "d", "q", 0⟩],
   [⟨1, 1, 2, .in_progress⟩], [⟨1, 1, 8, none, none⟩]⟩

def pC6 : Profile := ⟨1, .client, "a", "b", "p", 0⟩

theorem deposit_cap_witness :
    findProfile 1 stC6 = some pC6 ∧
      totalJobsToPay 1 stC6 * (0.25 : ℚ) = 2 ∧
      ((deposit pC6 1 (totalJobsToPay 1 stC6 * (0.25 : ℚ)) stC6).1 = .success ∧
        balanceOf 1 (deposit pC6 1 (totalJobsToPay 1 stC6 * (0.25 : ℚ)) stC6).2
          = balanceOf 1 stC6 + totalJobsToPay 1 stC6 * (0.25 : ℚ) ∧
        ∀ a : ℚ, totalJobsToPay 1 stC6 * (0.25 : ℚ) < a →
          deposit pC6 1 a stC6 = (.depositLimitExceeded, stC6)) :=
  ⟨by with_unfolding_all decide, by with_unfolding_all decide,
    deposit_cap stC6 pC6 1 (by with_unfolding_all decide) (by with_unfolding_all decide)
      (by with_unfolding_all decide)⟩

/-- C9: the `getProfile` guard never writes to the store; it answers
MissingIdentity (HTTP 400) when the `profile_id` header is absent,
UnknownIdentity (HTTP 404) when the header matches no Profile, and otherwise
attaches the resolved Profile to the request context. -/
theorem getProfile_guard (h : Option Nat) (st : Store) :
    (getProfile h st).2 = st ∧
    (h = none → (getProfile h st).1 = GuardResult.missingIdentity) ∧
    (∀ pid, h = some pid → findProfile pid st = none →
      (getProfile h st).1 = GuardResult.unknownIdentity) ∧
    (∀ pid p, h = some pid → findProfile pid st = some p →
      (getProfile h st).1 = GuardResult.ok p) := by
  refine ⟨?_, ?_, ?_, ?_⟩
  · cases h with
    | none => rfl
    | some pid => cases hfp : findProfile pid st <;> simp [getProfile, hfp]
  · intro hnone
    subst hnone
    rfl
  · intro pid hpid hfp
    subst hpid
    simp [getProfile, hfp]
  · intro pid p hpid hfp
    subst hpid
    simp [getProfile, hfp]

/-- Witness for C9 at concrete inputs: header present and resolved, header
absent, and header resolving to nothing. -/
def stC9 : Store := ⟨[⟨7, .client, "a", "b", "p", 0⟩], [], []⟩

theorem getProfile_guard_witness :
    ((getProfile (some 7) stC9).2 = stC9 ∧
      (getProfile (some 7) stC9).1 = GuardResult.ok ⟨7, .client, "a", "b", "p", 0⟩) ∧
    (getProfile none stC9).1 = GuardResult.missingIdentity ∧
    (getProfile (some 9) stC9).1 = GuardResult.unknownIdentity :=
  ⟨⟨(getProfile_guard (some 7) stC9).1,
      (getProfile_guard (some 7) stC9).2.2.2 7 ⟨7, .client, "a", "b", "p", 0⟩ rfl
        (by with_unfolding_all decide)⟩,
    (getProfile_guard none stC9).2.1 rfl,
    (getProfile_guard (some 9) stC9).2.2.1 9 rfl (by with_unfolding_all decide)⟩

/-- Store for C2: client 1 (balance 20), contractor 2, one in_progress
contract, one job of price 10. -/
def stC2 : Store :=
  ⟨[⟨1, .client, "a", "b", "p", 20⟩, ⟨2, .contractor, "c", "d", "q", 0⟩],
   [⟨1, 1, 2, .in_progress⟩], [⟨1, 1, 10, none, none⟩]⟩

/-- The store after the first payment of job 1 in `stC2`. -/
def stC2after : Store := (payJob ⟨1, .client, "a", "b", "p", 20⟩ 1 0 stC2).2

/-- C2 fails on the code: the handler never checks `job.paid`.  After a first
successful payment of job 1 the job is marked paid and the guard resolves the
client with balance 10; a second sequential payJob on the very same job still
succeeds and debits/credits again, so the client ends at 0 and the contractor
at 20 — two debits and two credits in total, not one. -/
theorem payJob_double_pay_bug :
    (payJob ⟨1, .client, "a", "b", "p", 20⟩ 1 0 stC2).1 = PayResult.success ∧
    (findJob 1 stC2after).map Job.paid = some (some true) ∧
    findProfile 1 stC2after = some ⟨1, .client, "a", "b", "p", 10⟩ ∧
    (payJob ⟨1, .client, "a", "b", "p", 10⟩ 1 1 stC2after).1 = PayResult.success ∧
    balanceOf 1 (payJob ⟨1, .client, "a", "b", "p", 10⟩ 1 1 stC2after).2 = 0 ∧
    balanceOf 2 (payJob ⟨1, .client, "a", "b", "p", 10⟩ 1 1 stC2after).2 = 20 := by
  with_unfolding_all decide

/-- Store for C3: identical to `stC2` except the contract is terminated. -/
def stC3 : Store :=
  ⟨[⟨1, .client, "a", "b", "p", 100⟩, ⟨2, .contractor, "c", "d", "q", 0⟩],
   [⟨1, 1, 2, .terminated⟩], [⟨1, 1, 10, none, none⟩]⟩

/-- C3 fails on the code: the handler never reads `Contract.status`; a job on
a terminated contract is paid all the same — the client is debited, the
contractor credited and the job marked paid. -/
theorem payJob_ignores_contract_status :
    (findContract 1 stC3).map Contract.status = some ContractStatus.terminated ∧
    (payJob ⟨1, .client, "a", "b", "p", 100⟩ 1 0 stC3).1 = PayResult.success ∧
    balanceOf 1 (payJob ⟨1, .client, "a", "b", "p", 100⟩ 1 0 stC3).2 = 90 ∧
    balanceOf 2 (payJob ⟨1, .client, "a", "b", "p", 100⟩ 1 0 stC3).2 = 10 ∧
    (findJob 1 (payJob ⟨1, .client, "a", "b", "p", 100⟩ 1 0 stC3).2).map Job.paid
      = some (some true) := by
  with_unfolding_all decide

/-- Store for C7: client 1 with balance 100 and no jobs at all, so the
outstanding total is 0 and the cap is 0. -/
def stC7 : Store := ⟨[⟨1, .client, "a", "b", "p", 100⟩], [], []⟩

/-- C7 fails on the code: the deposit handler only rejects amounts above the
cap, never amounts ≤ 0.  A deposit of -50 is below the cap 0, is accepted,
and decreases the client's balance from 100 to 50. -/
theorem deposit_negative_amount_bug :
    totalJobsToPay 1 stC7 * (0.25 : ℚ) = 0 ∧
    (deposit ⟨1, .client, "a", "b", "p", 100⟩ 1 (-50) stC7).1 = DepositResult.success ∧
    balanceOf 1 stC7 = 100 ∧
    balanceOf 1 (deposit ⟨1, .client, "a", "b", "p", 100⟩ 1 (-50) stC7).2 = 50 := by
  with_unfolding_all decide

/-- With every write succeeding, the fault-annotated handler is the plain
handler. -/
lemma payJobWithFaults_no_fault (profile : Profile) (jobId now : Nat) (st : Store) :
    payJobWithFaults (fun _ => true) profile jobId now st = payJob profile jobId now st := by
  unfold payJobWithFaults payJob
  split
  · rfl
  · split
    · rfl
    · split
      · rfl
      · split
        · rfl
        · simp

/-- Store for C8: client 1 (balance 100), contractor 2, one in_progress
contract, one job of price 10. -/
def stC8 : Store :=
  ⟨[⟨1, .client, "a", "b", "p", 100⟩, ⟨2, .contractor, "c", "d", "q", 0⟩],
   [⟨1, 1, 2, .in_progress⟩], [⟨1, 1, 10, none, none⟩]⟩

/-- C8 fails on the code: the three writes of a payment are separate
non-transactional statements.  When the first write (the client debit)
succeeds and the second (the contractor credit) throws, the handler answers
500 — not success — yet the client's balance has already changed from 100 to
90, while the contractor's balance and the job's paid flag are unchanged:
partial state is visible after a failed call. -/
theorem payJob_partial_state_bug :
    (payJobWithFaults (fun k => k == 0) ⟨1, .client, "a", "b", "p", 100⟩ 1 0 stC8).1
        = PayResult.internalError ∧
    balanceOf 1 stC8 = 100 ∧
    balanceOf 1 (payJobWithFaults (fun k => k == 0) ⟨1, .client, "a", "b", "p", 100⟩ 1 0 stC8).2
        = 90 ∧
    balanceOf 2 (payJobWithFaults (fun k => k == 0) ⟨1, .client, "a", "b", "p", 100⟩ 1 0 stC8).2
        = 0 ∧
    (findJob 1 (payJobWithFaults (fun k => k == 0) ⟨1, .client, "a", "b", "p", 100⟩ 1 0
        stC8).2).map Job.paid = some none ∧
    payJobWithFaults (fun _ => true) ⟨1, .client, "a", "b", "p", 100⟩ 1 0 stC8
        = payJob ⟨1, .client, "a", "b", "p", 100⟩ 1 0 stC8 := by
  with_unfolding_all decide

/-! ### Frame lemmas: a balance update touches nothing but the balance, and
marking a job paid touches nothing but paid/paymentDate -/

lemma updProfile_id (pid : Nat) (d : ℚ) (p : Profile) :
    (if p.id == pid then { p with balance := p.balance + d } else p).id = p.id := by
  split <;> rfl

lemma updProfile_type (pid : Nat) (d : ℚ) (p : Profile) :
    (if p.id == pid then { p with balance := p.balance + d } else p).type = p.type := by
  split <;> rfl

lemma updProfile_firstName (pid : Nat) (d : ℚ) (p : Profile) :
    (if p.id == pid then { p with balance := p.balance + d } else p).firstName
      = p.firstName := by
  split <;> rfl

lemma updProfile_lastName (pid : Nat) (d : ℚ) (p : Profile) :
    (if p.id == pid then { p with balance := p.balance + d } else p).lastName
      = p.lastName := by
  split <;> rfl

lemma updProfile_profession (pid : Nat) (d : ℚ) (p : Profile) :
    (if p.id == pid then { p with balance := p.balance + d } else p).profession
      = p.profession := by
  split <;> rfl

lemma updProfile_eq_of_ne (pid : Nat) (d : ℚ) (p : Profile) (h : p.id ≠ pid) :
    (if p.id == pid then { p with balance := p.balance + d } else p) = p := by
  rw [if_neg (by simpa using h)]

lemma markJob_id (jobId now : Nat) (j : Job) :
    (if j.id == jobId then { j with paid := some true, paymentDate := some now } else j).id
      = j.id := by
  split <;> rfl

lemma markJob_ContractId (jobId now : Nat) (j : Job) :
    (if j.id == jobId then
        { j with paid := some true, paymentDate := some now } else j).ContractId
      = j.ContractId := by
  split <;> rfl

lemma markJob_price (jobId now : Nat) (j : Job) :
    (if j.id == jobId then { j with paid := some true, paymentDate := some now } else j).price
      = j.price := by
  split <;> rfl

lemma markJob_eq_of_ne (jobId now : Nat) (j : Job) (h : j.id ≠ jobId) :
    (if j.id == jobId then { j with paid := some true, paymentDate := some now } else j)
      = j := by
  rw [if_neg (by simpa using h)]

/-- C10: a successful payJob mutates only the payer's balance, the balance of
the profile with id Contract.ContractorId, and the paid/paymentDate fields of
the paid job.  The contract list is untouched; the profile and job lists keep
their length; positionally, every profile keeps its id, type, firstName,
lastName and profession, and a profile whose id is neither the payer's nor the
contractor's is fully unchanged; every job keeps its id, ContractId and price,
and a job whose id is not the paid one is fully unchanged. -/
theorem payJob_frame (st : Store) (profile : Profile) (jobId now : Nat)
    (hsucc : (payJob profile jobId now st).1 = .success) :
    ∃ job c, findJob jobId st = some job ∧ findContract job.ContractId st = some c ∧
      (payJob profile jobId now st).2.contracts = st.contracts ∧
      (payJob profile jobId now st).2.profiles.length = st.profiles.length ∧
      (payJob profile jobId now st).2.jobs.length = st.jobs.length ∧
      (∀ k (hk : k < st.profiles.length)
          (hk2 : k < (payJob profile jobId now st).2.profiles.length),
        ((payJob profile jobId now st).2.profiles[k].id = st.profiles[k].id ∧
          (payJob profile jobId now st).2.profiles[k].type = st.profiles[k].type ∧
          (payJob profile jobId now st).2.profiles[k].firstName = st.profiles[k].firstName ∧
          (payJob profile jobId now st).2.profiles[k].lastName = st.profiles[k].lastName ∧
          (payJob profile jobId now st).2.profiles[k].profession
            = st.profiles[k].profession) ∧
        (st.profiles[k].id ≠ profile.id → st.profiles[k].id ≠ c.ContractorId →
          (payJob profile jobId now st).2.profiles[k] = st.profiles[k])) ∧
      (∀ k (hk : k < st.jobs.length)
          (hk2 : k < (payJob profile jobId now st).2.jobs.length),
        ((payJob profile jobId now st).2.jobs[k].id = st.jobs[k].id ∧
          (payJob profile jobId now st).2.jobs[k].ContractId = st.jobs[k].ContractId ∧
          (payJob profile jobId now st).2.jobs[k].price = st.jobs[k].price) ∧
        (st.jobs[k].id ≠ jobId →
          (payJob profile jobId now st).2.jobs[k] = st.jobs[k])) := by
  obtain ⟨job, hj, c, hc, hauth, hfunds⟩ := payJob_success_elim profile jobId now st hsucc
  have hstate := payJob_success_state profile jobId now st hj hc hauth hfunds
  have hprof : (payJob profile jobId now st).2.profiles
      = (st.profiles.map (fun p =>
          if p.id == profile.id then { p with balance := p.balance + -job.price } else p)).map
        (fun p =>
          if p.id == c.ContractorId then { p with balance := p.balance + job.price } else p) := by
    rw [hstate]
    rfl
  have hjobs : (payJob profile jobId now st).2.jobs
      = st.jobs.map (fun j =>
          if j.id == jobId then { j with paid := some true, paymentDate := some now } else j) := by
    rw [hstate]
    rfl
  have hcon : (payJob profile jobId now st).2.contracts = st.contracts := by
    rw [hstate]
    rfl
  refine ⟨job, c, hj, hc, hcon, by simp [hprof], by simp [hjobs], ?_, ?_⟩
  · intro k hk hk2
    have hget : (payJob profile jobId now st).2.profiles[k]
        = (fun p =>
            if p.id == c.ContractorId then { p with balance := p.balance + job.price } else p)
          ((fun p =>
            if p.id == profile.id then { p with balance := p.balance + -job.price } else p)
            st.profiles[k]) := by
      simp [hprof]
    constructor
    · rw [hget]
      simp only []
      exact ⟨by rw [updProfile_id, updProfile_id], by rw [updProfile_type, updProfile_type],
        by rw [updProfile_firstName, updProfile_firstName],
        by rw [updProfile_lastName, updProfile_lastName],
        by rw [updProfile_profession, updProfile_profession]⟩
    · intro hne1 hne2
      rw [hget]
      simp only []
      rw [updProfile_eq_of_ne _ _ _ hne1, updProfile_eq_of_ne _ _ _ hne2]
  · intro k hk hk2
    have hget : (payJob profile jobId now st).2.jobs[k]
        = (fun j =>
            if j.id == jobId then { j with paid := some true, paymentDate := some now } else j)
          st.jobs[k] := by
      simp [hjobs]
    constructor
    · rw [hget]
      simp only []
      exact ⟨by rw [markJob_id], by rw [markJob_ContractId], by rw [markJob_price]⟩
    · intro hne
      rw [hget]
      simp only []
      exact markJob_eq_of_ne _ _ _ hne

/-- Witness store for C10: two profiles, one contract, two jobs (job 2 stays
untouched when job 1 is paid). -/
def stC10 : Store :=
  ⟨[⟨1, .client, "a", "b", "p", 30⟩, ⟨2, .contractor, "c", "d", "q", 5⟩],
   [⟨1, 1, 2, .in_progress⟩], [⟨1, 1, 10, none, none⟩, ⟨2, 1, 7, none, none⟩]⟩

def pC10 : Profile := ⟨1, .client, "a", "b", "p", 30⟩

theorem payJob_frame_witness :
    (payJob pC10 1 0 stC10).1 = PayResult.success ∧
    (∃ job c, findJob 1 stC10 = some job ∧ findContract job.ContractId stC10 = some c ∧
      (payJob pC10 1 0 stC10).2.contracts = stC10.contracts ∧
      (payJob pC10 1 0 stC10).2.profiles.length = stC10.profiles.length ∧
      (payJob pC10 1 0 stC10).2.jobs.length = stC10.jobs.length ∧
      (∀ k (hk : k < stC10.profiles.length)
          (hk2 : k < (payJob pC10 1 0 stC10).2.profiles.length),
        ((payJob pC10 1 0 stC10).2.profiles[k].id = stC10.profiles[k].id ∧
          (payJob pC10 1 0 stC10).2.profiles[k].type = stC10.profiles[k].type ∧
          (payJob pC10 1 0 stC10).2.profiles[k].firstName = stC10.profiles[k].firstName ∧
          (payJob pC10 1 0 stC10).2.profiles[k].lastName = stC10.profiles[k].lastName ∧
          (payJob pC10 1 0 stC10).2.profiles[k].profession = stC10.profiles[k].profession) ∧
        (stC10.profiles[k].id ≠ pC10.id → stC10.profiles[k].id ≠ c.ContractorId →
          (payJob pC10 1 0 stC10).2.profiles[k] = stC10.profiles[k])) ∧
      (∀ k (hk : k < stC10.jobs.length)
          (hk2 : k < (payJob pC10 1 0 stC10).2.jobs.length),
        ((payJob pC10 1 0 stC10).2.jobs[k].id = stC10.jobs[k].id ∧
          (payJob pC10 1 0 stC10).2.jobs[k].ContractId = stC10.jobs[k].ContractId ∧
          (payJob pC10 1 0 stC10).2.jobs[k].price = stC10.jobs[k].price) ∧
        (stC10.jobs[k].id ≠ 1 →
          (payJob pC10 1 0 stC10).2.jobs[k] = stC10.jobs[k]))) :=
  ⟨by with_unfolding_all decide, payJob_frame stC10 pC10 1 0 (by with_unfolding_all decide)⟩

end PayGroup
